import Mathlib

/-!
Verification of the JWT ECDSA verify key manager
(src/cc/jwt/internal/jwt_ecdsa_verify_key_manager.cc).

The manager wraps an external raw ECDSA key manager. Pure C++ functions
become Lean functions; `util::StatusOr<T>` becomes `Except Status T`; the
proto enum `JwtEcdsaAlgorithm` becomes a closed inductive type with the
explicit unspecified variant `ES_UNKNOWN`. The raw key manager is external
to the shown translation unit, so it is represented as a record of its
interface functions; the wrapper's own code is translated line by line.
-/

/-- The proto enum `JwtEcdsaAlgorithm`: an unspecified sentinel plus the
three ECDSA curve/hash combinations. -/
inductive JwtEcdsaAlgorithm where
  | ES_UNKNOWN
  | ES256
  | ES384
  | ES512
deriving DecidableEq, Repr

/-- The proto message `JwtEcdsaPublicKey`: a version, the declared
algorithm, and the public point coordinates as opaque byte strings. -/
structure JwtEcdsaPublicKey where
  version : Nat
  algorithm : JwtEcdsaAlgorithm
  x : List Nat
  y : List Nat
deriving DecidableEq, Repr

/-- The subset of `util::error` canonical codes that the translated code
and its raw delegate can report. -/
inductive StatusCode where
  | OK
  | INVALID_ARGUMENT
  | INTERNAL
  | UNKNOWN_ERROR
  | OUT_OF_RANGE
deriving DecidableEq, Repr

/-- `util::Status`: a canonical code together with a message string. -/
structure Status where
  code : StatusCode
  message : String
deriving DecidableEq, Repr

/-- `util::OkStatus()`. -/
def Status.okStatus : Status := ⟨StatusCode.OK, ""⟩

/-- `util::StatusOr<A>`: either a value or an error status. -/
abbrev StatusOr (α : Type) := Except Status α

/-- The proto enum `KeyData::KeyMaterialType`. -/
inductive KeyMaterialType where
  | UNKNOWN_KEYMATERIAL
  | SYMMETRIC
  | ASYMMETRIC_PRIVATE
  | ASYMMETRIC_PUBLIC
  | REMOTE
deriving DecidableEq, Repr

/-- `jwt_internal::JwtPublicKeyVerifyImpl`: the JWT verifier constructed by
the factory, binding a raw verification primitive (of abstract type `P`)
with its JWT algorithm name. -/
structure JwtPublicKeyVerifyImpl (P : Type) where
  verify : P
  algorithm : String
deriving DecidableEq, Repr

/-- Interface of the external raw key manager `raw_key_manager_`
(an `EcdsaVerifyKeyManager`, outside the shown translation unit): the five
operations the wrapper consumes, as pure functions — the raw manager is
stateless. `P` is the type of the raw verification primitive it produces. -/
structure EcdsaVerifyKeyManagerModel (P : Type) where
  GetPrimitive : JwtEcdsaPublicKey → StatusOr P
  ValidateKey : JwtEcdsaPublicKey → Status
  get_version : Nat
  key_material_type : KeyMaterialType
  get_key_type : String

/-- `JwtEcdsaVerifyKeyManager`: holds the raw key manager it delegates to. -/
structure JwtEcdsaVerifyKeyManager (P : Type) where
  raw_key_manager_ : EcdsaVerifyKeyManagerModel P

/-- `JwtEcdsaVerifyKeyManager::AlgorithmName` (static): the switch mapping
each algorithm to its canonical JWT name, with the `default` arm returning
`Status(INVALID_ARGUMENT, "Unknown algorithm")`. -/
def JwtEcdsaVerifyKeyManager.AlgorithmName
    (algorithm : JwtEcdsaAlgorithm) : StatusOr String :=
  match algorithm with
  | JwtEcdsaAlgorithm.ES256 => Except.ok "ES256"
  | JwtEcdsaAlgorithm.ES384 => Except.ok "ES384"
  | JwtEcdsaAlgorithm.ES512 => Except.ok "ES512"
  | JwtEcdsaAlgorithm.ES_UNKNOWN =>
      Except.error ⟨StatusCode.INVALID_ARGUMENT, "Unknown algorithm"⟩

/-- `JwtEcdsaVerifyKeyManager::PublicKeyVerifyFactory::Create`: resolve the
algorithm name (returning its status on failure), ask the raw key manager
for the primitive (returning its status on failure), then wrap both in a
`JwtPublicKeyVerifyImpl`. -/
def JwtEcdsaVerifyKeyManager.Create {P : Type}
    (m : JwtEcdsaVerifyKeyManager P) (jwt_ecdsa_public_key : JwtEcdsaPublicKey) :
    StatusOr (JwtPublicKeyVerifyImpl P) :=
  match JwtEcdsaVerifyKeyManager.AlgorithmName jwt_ecdsa_public_key.algorithm with
  | Except.error s => Except.error s
  | Except.ok name =>
      match m.raw_key_manager_.GetPrimitive jwt_ecdsa_public_key with
      | Except.error s => Except.error s
      | Except.ok result => Except.ok ⟨result, name⟩

/-- `Create` instrumented with a test double: the same control flow as
`JwtEcdsaVerifyKeyManager.Create`, additionally recording the list of keys
on which `raw_key_manager_.GetPrimitive` is invoked (the spec's
"observable via a test double that records calls"). -/
def JwtEcdsaVerifyKeyManager.CreateTraced {P : Type}
    (m : JwtEcdsaVerifyKeyManager P) (jwt_ecdsa_public_key : JwtEcdsaPublicKey) :
    StatusOr (JwtPublicKeyVerifyImpl P) × List JwtEcdsaPublicKey :=
  match JwtEcdsaVerifyKeyManager.AlgorithmName jwt_ecdsa_public_key.algorithm with
  | Except.error s => (Except.error s, [])
  | Except.ok name =>
      match m.raw_key_manager_.GetPrimitive jwt_ecdsa_public_key with
      | Except.error s => (Except.error s, [jwt_ecdsa_public_key])
      | Except.ok result => (Except.ok ⟨result, name⟩, [jwt_ecdsa_public_key])

/-- `JwtEcdsaVerifyKeyManager::get_version`: delegation. -/
def JwtEcdsaVerifyKeyManager.get_version {P : Type}
    (m : JwtEcdsaVerifyKeyManager P) : Nat :=
  m.raw_key_manager_.get_version

/-- `JwtEcdsaVerifyKeyManager::key_material_type`: delegation. -/
def JwtEcdsaVerifyKeyManager.key_material_type {P : Type}
    (m : JwtEcdsaVerifyKeyManager P) : KeyMaterialType :=
  m.raw_key_manager_.key_material_type

/-- `JwtEcdsaVerifyKeyManager::get_key_type`: delegation. -/
def JwtEcdsaVerifyKeyManager.get_key_type {P : Type}
    (m : JwtEcdsaVerifyKeyManager P) : String :=
  m.raw_key_manager_.get_key_type

/-- `JwtEcdsaVerifyKeyManager::ValidateKey`: delegation. -/
def JwtEcdsaVerifyKeyManager.ValidateKey {P : Type}
    (m : JwtEcdsaVerifyKeyManager P) (key : JwtEcdsaPublicKey) : Status :=
  m.raw_key_manager_.ValidateKey key

/-- Modelled from the spec: the external `EcdsaVerifyKeyManager` (not in
the shown translation unit) carries static metadata — a manager version
number starting at 0, the key material classification "public"
(ASYMMETRIC_PUBLIC, no secrecy requirement for a verify manager), and a
fixed opaque type-URL string constant. Its cryptographic operations
(`GetPrimitive`, `ValidateKey`) stay abstract, supplied as parameters. -/
def EcdsaVerifyKeyManagerModel.spec (P : Type)
    (gp : JwtEcdsaPublicKey → StatusOr P)
    (vk : JwtEcdsaPublicKey → Status) : EcdsaVerifyKeyManagerModel P :=
  { GetPrimitive := gp
    ValidateKey := vk
    get_version := 0
    key_material_type := KeyMaterialType.ASYMMETRIC_PUBLIC
    get_key_type := "type.googleapis.com/google.crypto.tink.JwtEcdsaPublicKey" }

/-- Modelled from the spec: the manager's no-argument constructor — each
fresh instance holds the same constant raw key manager (the raw manager is
a default-constructed member of a fixed class, so its metadata is identical
across instances; its abstract crypto functions are passed as parameters). -/
def JwtEcdsaVerifyKeyManager.new (P : Type)
    (gp : JwtEcdsaPublicKey → StatusOr P)
    (vk : JwtEcdsaPublicKey → Status) : JwtEcdsaVerifyKeyManager P :=
  ⟨EcdsaVerifyKeyManagerModel.spec P gp vk⟩

/-- Concrete raw manager for witnesses: the primitive type is `Unit`,
`GetPrimitive` always succeeds, `ValidateKey` always accepts. -/
def rmAccepting : EcdsaVerifyKeyManagerModel Unit :=
  EcdsaVerifyKeyManagerModel.spec Unit
    (fun _ => Except.ok ()) (fun _ => Status.okStatus)

/-- Concrete raw manager for witnesses: `GetPrimitive` fails with an
INTERNAL status, `ValidateKey` rejects with INVALID_ARGUMENT. -/
def rmRejecting : EcdsaVerifyKeyManagerModel Unit :=
  EcdsaVerifyKeyManagerModel.spec Unit
    (fun _ => Except.error ⟨StatusCode.INTERNAL, "raw manager failure"⟩)
    (fun _ => ⟨StatusCode.INVALID_ARGUMENT, "invalid point"⟩)

/-- Concrete ES256 key material for witnesses. -/
def kES256 : JwtEcdsaPublicKey :=
  { version := 0, algorithm := JwtEcdsaAlgorithm.ES256, x := [1, 2], y := [3, 4] }

/-- Concrete key material with the unspecified algorithm, for witnesses. -/
def kUnknown : JwtEcdsaPublicKey :=
  { version := 0, algorithm := JwtEcdsaAlgorithm.ES_UNKNOWN, x := [1, 2], y := [3, 4] }

/-- C1: whenever the algorithm name resolves and the raw key manager's
primitive creation succeeds, `Create` returns Ok with a verifier binding
exactly that primitive and exactly that resolved name. -/
theorem create_binds_primitive_and_name {P : Type}
    (rm : EcdsaVerifyKeyManagerModel P) (k : JwtEcdsaPublicKey)
    (name : String) (p : P)
    (hname : JwtEcdsaVerifyKeyManager.AlgorithmName k.algorithm = Except.ok name)
    (hprim : rm.GetPrimitive k = Except.ok p) :
    JwtEcdsaVerifyKeyManager.Create ⟨rm⟩ k = Except.ok ⟨p, name⟩ := by
  simp [JwtEcdsaVerifyKeyManager.Create, hname, hprim]

/-- C1 witness: valid ES256 key material with an accepting raw manager
yields a verifier whose bound name equals "ES256". -/
theorem create_binds_primitive_and_name_witness :
    JwtEcdsaVerifyKeyManager.Create ⟨rmAccepting⟩ kES256 =
      Except.ok ⟨(), "ES256"⟩ :=
  create_binds_primitive_and_name rmAccepting kES256 "ES256" () rfl rfl

/-- C2: construction is all-or-nothing — `Create` returns a verifier
exactly when both the algorithm-name resolution and the raw key manager's
primitive creation succeed; in particular no verifier is ever produced
from key material whose algorithm is unspecified. -/
theorem create_all_or_nothing {P : Type}
    (rm : EcdsaVerifyKeyManagerModel P) (k : JwtEcdsaPublicKey) :
    ((∃ v, JwtEcdsaVerifyKeyManager.Create ⟨rm⟩ k = Except.ok v) ↔
      ((∃ n, JwtEcdsaVerifyKeyManager.AlgorithmName k.algorithm = Except.ok n) ∧
       (∃ p, rm.GetPrimitive k = Except.ok p))) ∧
    (k.algorithm = JwtEcdsaAlgorithm.ES_UNKNOWN →
      ∀ v, JwtEcdsaVerifyKeyManager.Create ⟨rm⟩ k ≠ Except.ok v) := by
  constructor
  · constructor
    · intro ⟨v, hv⟩
      unfold JwtEcdsaVerifyKeyManager.Create at hv
      cases hname : JwtEcdsaVerifyKeyManager.AlgorithmName k.algorithm with
      | error s => simp [hname] at hv
      | ok n =>
          cases hprim : rm.GetPrimitive k with
          | error s => simp [hname, hprim] at hv
          | ok p => exact ⟨⟨n, rfl⟩, ⟨p, rfl⟩⟩
    · intro ⟨⟨n, hn⟩, ⟨p, hp⟩⟩
      exact ⟨⟨p, n⟩, by simp [JwtEcdsaVerifyKeyManager.Create, hn, hp]⟩
  · intro halg v hv
    unfold JwtEcdsaVerifyKeyManager.Create at hv
    simp [halg, JwtEcdsaVerifyKeyManager.AlgorithmName] at hv

/-- C2 witness: on key material with the unspecified algorithm, `Create`
never returns a verifier, even with an accepting raw manager. -/
theorem create_all_or_nothing_witness :
    JwtEcdsaVerifyKeyManager.Create ⟨rmAccepting⟩ kUnknown ≠
      Except.ok ⟨(), "ES256"⟩ :=
  (create_all_or_nothing rmAccepting kUnknown).2 rfl ⟨(), "ES256"⟩

/-- C3: for key material whose algorithm is outside {ES256, ES384, ES512},
`Create` fails with the INVALID_ARGUMENT status and the traced run records
no call of the raw key manager's `GetPrimitive`: the resolution failure
short-circuits before the raw key manager is touched. -/
theorem create_unknown_short_circuits {P : Type}
    (rm : EcdsaVerifyKeyManagerModel P) (k : JwtEcdsaPublicKey)
    (h256 : k.algorithm ≠ JwtEcdsaAlgorithm.ES256)
    (h384 : k.algorithm ≠ JwtEcdsaAlgorithm.ES384)
    (h512 : k.algorithm ≠ JwtEcdsaAlgorithm.ES512) :
    JwtEcdsaVerifyKeyManager.CreateTraced ⟨rm⟩ k =
      (Except.error ⟨StatusCode.INVALID_ARGUMENT, "Unknown algorithm"⟩, []) ∧
    JwtEcdsaVerifyKeyManager.Create ⟨rm⟩ k =
      Except.error ⟨StatusCode.INVALID_ARGUMENT, "Unknown algorithm"⟩ := by
  cases halg : k.algorithm with
  | ES_UNKNOWN =>
      exact ⟨by simp [JwtEcdsaVerifyKeyManager.CreateTraced, halg,
                      JwtEcdsaVerifyKeyManager.AlgorithmName],
             by simp [JwtEcdsaVerifyKeyManager.Create, halg,
                      JwtEcdsaVerifyKeyManager.AlgorithmName]⟩
  | ES256 => exact absurd halg h256
  | ES384 => exact absurd halg h384
  | ES512 => exact absurd halg h512

/-- C3 witness: the unspecified-algorithm key with an accepting raw
manager: `Create` fails with INVALID_ARGUMENT and the trace of
`GetPrimitive` calls is empty. -/
theorem create_unknown_short_circuits_witness :
    JwtEcdsaVerifyKeyManager.CreateTraced ⟨rmAccepting⟩ kUnknown =
      (Except.error ⟨StatusCode.INVALID_ARGUMENT, "Unknown algorithm"⟩, []) ∧
    JwtEcdsaVerifyKeyManager.Create ⟨rmAccepting⟩ kUnknown =
      Except.error ⟨StatusCode.INVALID_ARGUMENT, "Unknown algorithm"⟩ :=
  create_unknown_short_circuits rmAccepting kUnknown
    (by decide) (by decide) (by decide)

/-- C4: when the algorithm name resolves but the raw key manager's
`GetPrimitive` fails, `Create` fails with exactly the status the raw key
manager reported, unchanged. -/
theorem create_propagates_raw_error {P : Type}
    (rm : EcdsaVerifyKeyManagerModel P) (k : JwtEcdsaPublicKey)
    (name : String) (s : Status)
    (hname : JwtEcdsaVerifyKeyManager.AlgorithmName k.algorithm = Except.ok name)
    (hprim : rm.GetPrimitive k = Except.error s) :
    JwtEcdsaVerifyKeyManager.Create ⟨rm⟩ k = Except.error s := by
  simp [JwtEcdsaVerifyKeyManager.Create, hname, hprim]

/-- C4 witness: an ES256 key whose raw primitive creation fails with an
INTERNAL status makes `Create` fail with exactly that status. -/
theorem create_propagates_raw_error_witness :
    JwtEcdsaVerifyKeyManager.Create ⟨rmRejecting⟩ kES256 =
      Except.error ⟨StatusCode.INTERNAL, "raw manager failure"⟩ :=
  create_propagates_raw_error rmRejecting kES256 "ES256"
    ⟨StatusCode.INTERNAL, "raw manager failure"⟩ rfl rfl

/-- C5: for each algorithm in {ES256, ES384, ES512}, `AlgorithmName`
returns Ok with the exact matching string; being a Lean function it is
pure with no side effects. -/
theorem algorithm_name_known_algorithms :
    JwtEcdsaVerifyKeyManager.AlgorithmName JwtEcdsaAlgorithm.ES256 =
      Except.ok "ES256" ∧
    JwtEcdsaVerifyKeyManager.AlgorithmName JwtEcdsaAlgorithm.ES384 =
      Except.ok "ES384" ∧
    JwtEcdsaVerifyKeyManager.AlgorithmName JwtEcdsaAlgorithm.ES512 =
      Except.ok "ES512" :=
  ⟨rfl, rfl, rfl⟩

/-- C6 counterexample: on the unspecified algorithm, `AlgorithmName` does
not return the status `InvalidArgument("unknown algorithm")` claimed by
the spec — the message in the code is capitalized differently. -/
theorem algorithm_name_message_counterexample :
    JwtEcdsaVerifyKeyManager.AlgorithmName JwtEcdsaAlgorithm.ES_UNKNOWN ≠
      Except.error ⟨StatusCode.INVALID_ARGUMENT, "unknown algorithm"⟩ := by
  intro h
  have h2 : ("Unknown algorithm" : String) = "unknown algorithm" :=
    congrArg
      (fun e => match e with | Except.error s => s.message | Except.ok n => n) h
  exact absurd h2 (by decide)

/-- C6 (amended): for every algorithm outside {ES256, ES384, ES512} —
only the unspecified variant remains — `AlgorithmName` fails with
`InvalidArgument("Unknown algorithm")`. -/
theorem algorithm_name_unknown_invalid_argument
    (alg : JwtEcdsaAlgorithm)
    (h256 : alg ≠ JwtEcdsaAlgorithm.ES256)
    (h384 : alg ≠ JwtEcdsaAlgorithm.ES384)
    (h512 : alg ≠ JwtEcdsaAlgorithm.ES512) :
    JwtEcdsaVerifyKeyManager.AlgorithmName alg =
      Except.error ⟨StatusCode.INVALID_ARGUMENT, "Unknown algorithm"⟩ := by
  cases alg with
  | ES_UNKNOWN => rfl
  | ES256 => exact absurd rfl h256
  | ES384 => exact absurd rfl h384
  | ES512 => exact absurd rfl h512

/-- C6 witness: the unspecified algorithm fails with exactly
`InvalidArgument("Unknown algorithm")`. -/
theorem algorithm_name_unknown_invalid_argument_witness :
    JwtEcdsaVerifyKeyManager.AlgorithmName JwtEcdsaAlgorithm.ES_UNKNOWN =
      Except.error ⟨StatusCode.INVALID_ARGUMENT, "Unknown algorithm"⟩ :=
  algorithm_name_unknown_invalid_argument JwtEcdsaAlgorithm.ES_UNKNOWN
    (by decide) (by decide) (by decide)

/-- C7: `ValidateKey` returns exactly the raw key manager's result on the
same material — no extra validation, no algorithm-name resolution — so
material with the unspecified algorithm passes whenever the raw manager
accepts it; and as a pure function of its inputs it is idempotent: two
calls on the same material yield the same result. -/
theorem validate_key_delegates {P : Type}
    (rm : EcdsaVerifyKeyManagerModel P) (k : JwtEcdsaPublicKey) :
    (JwtEcdsaVerifyKeyManager.ValidateKey ⟨rm⟩ k = rm.ValidateKey k) ∧
    (rm.ValidateKey k = Status.okStatus →
      k.algorithm = JwtEcdsaAlgorithm.ES_UNKNOWN →
      JwtEcdsaVerifyKeyManager.ValidateKey ⟨rm⟩ k = Status.okStatus) ∧
    (JwtEcdsaVerifyKeyManager.ValidateKey ⟨rm⟩ k =
      JwtEcdsaVerifyKeyManager.ValidateKey ⟨rm⟩ k) :=
  ⟨rfl, fun h _ => h, rfl⟩

/-- C7 witness: with an all-accepting raw manager, unspecified-algorithm
material still passes `ValidateKey`. -/
theorem validate_key_delegates_witness :
    JwtEcdsaVerifyKeyManager.ValidateKey ⟨rmAccepting⟩ kUnknown =
      Status.okStatus :=
  (validate_key_delegates rmAccepting kUnknown).2.1 rfl rfl

/-- C8: `key_material_type` is the raw key manager's classification, and
for the spec-modelled raw verify manager that classification is always
ASYMMETRIC_PUBLIC, whatever its abstract crypto functions are. -/
theorem key_material_type_public :
    (∀ (P : Type) (rm : EcdsaVerifyKeyManagerModel P),
      JwtEcdsaVerifyKeyManager.key_material_type ⟨rm⟩ = rm.key_material_type) ∧
    (∀ (P : Type) (gp : JwtEcdsaPublicKey → StatusOr P)
        (vk : JwtEcdsaPublicKey → Status),
      JwtEcdsaVerifyKeyManager.key_material_type
          (JwtEcdsaVerifyKeyManager.new P gp vk) =
        KeyMaterialType.ASYMMETRIC_PUBLIC) :=
  ⟨fun _ _ => rfl, fun _ _ _ => rfl⟩

/-- C9: `get_key_type` and `get_version` agree across any two instances
produced by the constructor (whatever abstract crypto functions each
carries), and take the constant values of the spec-modelled raw manager:
version 0 and the fixed type-URL string. -/
theorem key_type_version_constant :
    (∀ (P : Type) (gp1 gp2 : JwtEcdsaPublicKey → StatusOr P)
        (vk1 vk2 : JwtEcdsaPublicKey → Status),
      JwtEcdsaVerifyKeyManager.get_key_type
          (JwtEcdsaVerifyKeyManager.new P gp1 vk1) =
        JwtEcdsaVerifyKeyManager.get_key_type
          (JwtEcdsaVerifyKeyManager.new P gp2 vk2) ∧
      JwtEcdsaVerifyKeyManager.get_version
          (JwtEcdsaVerifyKeyManager.new P gp1 vk1) =
        JwtEcdsaVerifyKeyManager.get_version
          (JwtEcdsaVerifyKeyManager.new P gp2 vk2)) ∧
    (∀ (P : Type) (gp : JwtEcdsaPublicKey → StatusOr P)
        (vk : JwtEcdsaPublicKey → Status),
      JwtEcdsaVerifyKeyManager.get_version
          (JwtEcdsaVerifyKeyManager.new P gp vk) = 0 ∧
      JwtEcdsaVerifyKeyManager.get_key_type
          (JwtEcdsaVerifyKeyManager.new P gp vk) =
        "type.googleapis.com/google.crypto.tink.JwtEcdsaPublicKey") :=
  ⟨fun _ _ _ _ _ => ⟨rfl, rfl⟩, fun _ _ _ => ⟨rfl, rfl⟩⟩

/-- C10: every metadata accessor is a pure delegation — `get_key_type`,
`get_version` and `key_material_type` return exactly what the wrapped raw
key manager reports; the wrapper defines none of these values itself. -/
theorem metadata_pure_delegation {P : Type}
    (rm : EcdsaVerifyKeyManagerModel P) :
    JwtEcdsaVerifyKeyManager.get_key_type ⟨rm⟩ = rm.get_key_type ∧
    JwtEcdsaVerifyKeyManager.get_version ⟨rm⟩ = rm.get_version ∧
    JwtEcdsaVerifyKeyManager.key_material_type ⟨rm⟩ = rm.key_material_type :=
  ⟨rfl, rfl, rfl⟩
